import Mathlib

/-! Verification of the text-to-indicator extraction engine of the
suivi-delinquance repository (server module `parsePdf.js`, its in-browser
twin, and the filename parser duplicated in `server/index.js`).

Strings are modelled as `List Char`; JavaScript numbers as `ℤ` (for
`parseInt` results) and `ℚ` (for `parseFloat` results); `null` as
`Option.none`.  The specific regular expressions used by the source are
modelled by direct executable matchers that reproduce the backtracking
semantics of the JavaScript regex engine on those patterns.
-/

namespace SD

/-- Model of `\d` of a JavaScript regex: the ASCII digits. -/
def isDigitChar (c : Char) : Bool :=
  '0' ≤ c && c ≤ '9'

/-- Model of `\s` of a JavaScript regex (also the set stripped by `String.prototype.trim`):
space, tab, line feed, vertical tab, form feed, carriage return, NBSP and the
Unicode space separators, line/paragraph separators, and the BOM. -/
def jsIsSpace (c : Char) : Bool :=
  c = ' ' || c = '\t' || c = '\n' || c.val = 11 || c.val = 12 || c = '\r' ||
  c.val = 0xa0 || c.val = 0x1680 || (0x2000 ≤ c.val && c.val ≤ 0x200a) ||
  c.val = 0x2028 || c.val = 0x2029 || c.val = 0x202f || c.val = 0x205f ||
  c.val = 0x3000 || c.val = 0xfeff

/-- Numeric value of a run of ASCII digits (the value `parseInt` gives to a
string matched by `\d+`, as `parseIntStrict` does after stripping spaces). -/
def digitsVal (s : List Char) : ℤ :=
  s.foldl (fun acc c => acc * 10 + ((c.toNat : ℤ) - ('0'.toNat : ℤ))) 0

/-- Model of `String.prototype.trim`: drop the `\s` characters at both ends. -/
def jsTrim (s : List Char) : List Char :=
  ((s.dropWhile jsIsSpace).reverse.dropWhile jsIsSpace).reverse

/-- Model of `str.replace(/pat/g, rep)` for a fixed two-character pattern `a b` and a
one-character replacement `r`: left-to-right, non-overlapping. -/
def replace2 (a b r : Char) : List Char → List Char
  | [] => []
  | [c] => [c]
  | c :: d :: rest =>
    if c = a ∧ d = b then r :: replace2 a b r rest
    else c :: replace2 a b r (d :: rest)

/-- Does the two-character sequence `a b` occur in `s`? -/
def hasPair (a b : Char) : List Char → Bool
  | c :: d :: rest => (c = a && d = b) || hasPair a b (d :: rest)
  | _ => false

/-- The second characters of the eleven corrupted two-character sequences
(each preceded by `Ã`, U+00C3) that `fixFilenameEncoding` repairs, in the
order the source applies the substitutions.  The exact characters come from
the bytes of the source file: `©`, `¨`, a plain space, `´`, `»`, `§`, `®`,
`¯`, `¼`, `‰` (U+2030) and `€` (U+20AC). -/
def corruptSeconds : List Char :=
  ['©', '¨', ' ', '´', '»', '§', '®', '¯', '¼', '‰', '€']

/-- The replacement characters, in the same order: é è à ô û ç î ï ü É À. -/
def corruptRepls : List Char :=
  ['é', 'è', 'à', 'ô', 'û', 'ç', 'î', 'ï', 'ü', 'É', 'À']

/-- Model of `fixFilenameEncoding` (identical in `parsePdf` line 225 and
`server/index.js` line 75): eleven chained global `replace` calls, each
rewriting one corrupted `Ã·x` two-character sequence to one accented
character; the innermost application (`Ã©` → `é`) is performed first,
exactly as the source's method chain does. -/
def fixFilenameEncoding (s : List Char) : List Char :=
  replace2 'Ã' '€' 'À' <|
  replace2 'Ã' '‰' 'É' <|
  replace2 'Ã' '¼' 'ü' <|
  replace2 'Ã' '¯' 'ï' <|
  replace2 'Ã' '®' 'î' <|
  replace2 'Ã' '§' 'ç' <|
  replace2 'Ã' '»' 'û' <|
  replace2 'Ã' '´' 'ô' <|
  replace2 'Ã' ' ' 'à' <|
  replace2 'Ã' '¨' 'è' <|
  replace2 'Ã' '©' 'é' s

/-- A string free of every corrupted sequence the repair looks for. -/
def corruptFree (s : List Char) : Bool :=
  corruptSeconds.all (fun b => !(hasPair 'Ã' b s))

/-- Model of `String.prototype.toLowerCase`, modelled on the Basic Latin and Latin-1
repertoire this program processes (the identity elsewhere). -/
def jsToLower (c : Char) : Char :=
  if 'A' ≤ c && c ≤ 'Z' then Char.ofNat (c.toNat + 32)
  else if 0xc0 ≤ c.toNat && c.toNat ≤ 0xde && c.toNat ≠ 0xd7 then
    Char.ofNat (c.toNat + 32)
  else c

/-- Is `c` a combining diacritical mark (U+0300–U+036F)? -/
def isCombining (c : Char) : Bool :=
  0x300 ≤ c.toNat && c.toNat ≤ 0x36f

/-- Base letter of a precomposed Latin letter with a diacritic.  Together with
the `isCombining` filter this models
`normalize("NFD").replace(/[̀-ͯ]/g, "")` on the French repertoire
this program processes (the identity elsewhere). -/
def stripDiacriticChar (c : Char) : Char :=
  if c = 'à' ∨ c = 'â' ∨ c = 'ä' ∨ c = 'á' then 'a'
  else if c = 'é' ∨ c = 'è' ∨ c = 'ê' ∨ c = 'ë' then 'e'
  else if c = 'î' ∨ c = 'ï' ∨ c = 'í' ∨ c = 'ì' then 'i'
  else if c = 'ô' ∨ c = 'ö' ∨ c = 'ó' ∨ c = 'ò' then 'o'
  else if c = 'ù' ∨ c = 'û' ∨ c = 'ü' ∨ c = 'ú' then 'u'
  else if c = 'ç' then 'c'
  else if c = 'À' ∨ c = 'Â' ∨ c = 'Ä' then 'A'
  else if c = 'É' ∨ c = 'È' ∨ c = 'Ê' ∨ c = 'Ë' then 'E'
  else if c = 'Î' ∨ c = 'Ï' then 'I'
  else if c = 'Ô' ∨ c = 'Ö' then 'O'
  else if c = 'Ù' ∨ c = 'Û' ∨ c = 'Ü' then 'U'
  else if c = 'Ç' then 'C'
  else c

/-- Model of `normalize("NFD")` followed by removal of the combining marks. -/
def stripDiacritics (s : List Char) : List Char :=
  (s.map stripDiacriticChar).filter (fun c => !(isCombining c))

/-- Composition of a base letter with one combining mark, modelling
`normalize("NFC")` on the French repertoire this program processes. -/
def nfcPair (c d : Char) : Option Char :=
  if c = 'a' ∧ d.toNat = 0x300 then some 'à'
  else if c = 'a' ∧ d.toNat = 0x302 then some 'â'
  else if c = 'e' ∧ d.toNat = 0x301 then some 'é'
  else if c = 'e' ∧ d.toNat = 0x300 then some 'è'
  else if c = 'e' ∧ d.toNat = 0x302 then some 'ê'
  else if c = 'e' ∧ d.toNat = 0x308 then some 'ë'
  else if c = 'i' ∧ d.toNat = 0x302 then some 'î'
  else if c = 'i' ∧ d.toNat = 0x308 then some 'ï'
  else if c = 'o' ∧ d.toNat = 0x302 then some 'ô'
  else if c = 'u' ∧ d.toNat = 0x302 then some 'û'
  else if c = 'u' ∧ d.toNat = 0x308 then some 'ü'
  else if c = 'c' ∧ d.toNat = 0x327 then some 'ç'
  else if c = 'A' ∧ d.toNat = 0x300 then some 'À'
  else if c = 'E' ∧ d.toNat = 0x301 then some 'É'
  else none

/-- Model of `normalize("NFC")` modelled as single-mark composition over the French
repertoire (the identity on already-composed text such as the repaired
filenames this program feeds it). -/
def nfcFr : List Char → List Char
  | [] => []
  | [c] => [c]
  | c :: d :: rest =>
    match nfcPair c d with
    | some e => e :: nfcFr rest
    | none => c :: nfcFr (d :: rest)

/-- Model of `filename.replace(/\.pdf$/i, "")`: strip one trailing `.pdf`,
case-insensitively on the letters. -/
def stripPdfExt (s : List Char) : List Char :=
  match s.reverse with
  | f :: d :: p :: dot :: rest =>
    if jsToLower f = 'f' ∧ jsToLower d = 'd' ∧ jsToLower p = 'p' ∧ dot = '.' then
      rest.reverse
    else s
  | _ => s

/-- Model of `.` of a JavaScript regex without the `s` flag: any character except a
line terminator. -/
def isDotChar (c : Char) : Bool :=
  !(c = '\n' || c = '\r' || c.toNat = 0x2028 || c.toNat = 0x2029)

/-- Tail of the two filename patterns: `([^\d_]+?)(\d{4})$` applied to the
remainder `r` after the commune group's separator.  Because `(\d{4})` has a
fixed width and is anchored at the end, the month group is forced to be all
but the last four characters.  Returns (month token, year token). -/
def tailMatchFM (r : List Char) : Option (List Char × List Char) :=
  if r.length < 5 then none
  else
    let m := r.take (r.length - 4)
    let y := r.drop (r.length - 4)
    if m.all (fun c => !(isDigitChar c) && !(c = '_')) && y.all isDigitChar then
      some (m, y)
    else none

/-- Lazy (leftmost-shortest) search for the commune group of
`^(.+?)_([^\d_]+?)(\d{4})$`: `acc` is the candidate commune prefix, grown one
character at a time, exactly as the non-greedy `(.+?)` backtracks. -/
def goB (acc : List Char) : List Char → Option (List Char × List Char × List Char)
  | [] => none
  | c :: rest =>
    (if c = '_' && !acc.isEmpty && acc.all isDotChar then
       (tailMatchFM rest).map (fun p => (acc, p.1, p.2))
     else none) <|>
    goB (acc ++ [c]) rest

/-- Pattern B — `^(.+?)_([^\d_]+?)(\d{4})$` (`reB` of `parseFilename`).
Returns (commune group, month group, year group). -/
def matchBfm (s : List Char) : Option (List Char × List Char × List Char) :=
  goB [] s

/-- Pattern A — `^(\d{1,2})_(.+?)_([^\d_]+?)(\d{4})$` (`reA`): the greedy
`\d{1,2}` tries two digits before one; after the prefix and its underscore,
the rest of the pattern coincides with pattern B.  The numeric prefix group
is discarded, as the source's destructuring does. -/
def matchAfm (s : List Char) : Option (List Char × List Char × List Char) :=
  (match s with
   | a :: b :: c :: rest =>
     if isDigitChar a && isDigitChar b && c = '_' then matchBfm rest else none
   | _ => none) <|>
  (match s with
   | a :: b :: rest =>
     if isDigitChar a && b = '_' then matchBfm rest else none
   | _ => none)

/-- Model of `MOIS_MAP` of `parseFilename`, as an association list of its literal
entries in source order. -/
def moisMap : List (List Char × ℕ) :=
  [("janvier".data, 1), ("jan".data, 1), ("fevrier".data, 2), ("février".data, 2),
   ("fev".data, 2), ("mars".data, 3), ("avril".data, 4), ("mai".data, 5),
   ("juin".data, 6), ("juillet".data, 7), ("juil".data, 7), ("aout".data, 8),
   ("août".data, 8), ("septembre".data, 9), ("sept".data, 9), ("sep".data, 9),
   ("octobre".data, 10), ("novembre".data, 11), ("decembre".data, 12),
   ("décembre".data, 12), ("dec".data, 12), ("déc".data, 12)]

/-- Model of `MOIS_FALLBACK` of `parseFilename`: the typo table. -/
def moisFallback : List (List Char × ℕ) :=
  [("delcembre".data, 12), ("aoult".data, 8), ("aoul".data, 8)]

/-- Model of `MOIS_LABELS` of `parseFilename`: canonical capitalized French month
labels, index 0 unused. -/
def moisLabels : List String :=
  ["", "Janvier", "Février", "Mars", "Avril", "Mai", "Juin", "Juillet",
   "Août", "Septembre", "Octobre", "Novembre", "Décembre"]

/-- Own-property lookup in an object literal used as a table. -/
def assocLookup (k : List Char) : List (List Char × ℕ) → Option ℕ
  | [] => none
  | (k', v) :: rest => if k = k' then some v else assocLookup k rest

/-- The own property names of `Object.prototype`, which every object literal
inherits: bracket access with one of these keys on `MOIS_MAP` or
`MOIS_FALLBACK` yields the inherited member (a function, or for `__proto__`
the prototype object) — a truthy, non-numeric value — rather than
`undefined`. -/
def objectProtoKeys : List (List Char) :=
  ["constructor".data, "__defineGetter__".data, "__defineSetter__".data,
   "hasOwnProperty".data, "__lookupGetter__".data, "__lookupSetter__".data,
   "isPrototypeOf".data, "propertyIsEnumerable".data, "toString".data,
   "valueOf".data, "__proto__".data, "toLocaleString".data]

/-- A value a month-table bracket access can produce when it is not
`undefined`: one of the table's own numeric entries, or a member inherited
from `Object.prototype` (a function or object, identified by its key). -/
inductive JsNumOrFun where
  | num (n : ℕ)
  | fn (name : List Char)
deriving DecidableEq

/-- JavaScript bracket property access `tbl[k]` on an object literal: the
own entry when the key is one of the literal's, otherwise the member
inherited from `Object.prototype` when the key names one, otherwise
`undefined` (`none`). -/
def jsGetProp (k : List Char) (tbl : List (List Char × ℕ)) : Option JsNumOrFun :=
  match assocLookup k tbl with
  | some v => some (.num v)
  | none => if objectProtoKeys.any (fun p => k = p) then some (.fn k) else none

/-- JavaScript `||` on the lookup results: the left operand unless it is
falsy — `undefined`, or the number 0 (no table entry is 0, but the check is
kept faithful). -/
def jsOrMois (a b : Option JsNumOrFun) : Option JsNumOrFun :=
  match a with
  | none => b
  | some (.num 0) => b
  | some x => some x

/-- Month-token resolution of `parseFilename`:
`MOIS_MAP[moisTrim] || MOIS_MAP[moisClean] || MOIS_FALLBACK[moisClean]`,
with each bracket access walking the prototype chain. -/
def resolveMois (moisStr : List Char) : Option JsNumOrFun :=
  jsOrMois (jsGetProp ((jsTrim moisStr).map jsToLower) moisMap)
    (jsOrMois
      (jsGetProp ((stripDiacritics ((jsTrim moisStr).map jsToLower)).filter
        (fun c => !(jsIsSpace c))) moisMap)
      (jsGetProp ((stripDiacritics ((jsTrim moisStr).map jsToLower)).filter
        (fun c => !(jsIsSpace c))) moisFallback))

/-- Array read `MOIS_LABELS[moisIndex]`: a string for a numeric index within
the 13 entries, `undefined` (`none`) outside them or when the index is an
inherited function (whose string conversion names no array property). -/
def moisLabelOf : JsNumOrFun → Option (List Char)
  | .num n => if n < 13 then some ((moisLabels.getD n "").data) else none
  | .fn _ => none

/-- The object `parseFilename` returns, each field `none` when the source
leaves it absent or `undefined`; `mois` holds whatever the month lookup
produced — a table number or an inherited function. -/
structure ParsedFilename where
  commune : Option (List Char)
  mois : Option JsNumOrFun
  moisLabel : Option (List Char)
  annee : Option ℤ
  erreur : Option (List Char)
deriving DecidableEq

/-- Model of `parseFilename` (identical in the browser module line 240 and
`server/index.js` line 95).  The `!moisIndex` guard fires on `undefined` and
on the number 0, not on a truthy inherited function. -/
def parseFilename (filename : List Char) : ParsedFilename :=
  match matchAfm (nfcFr (fixFilenameEncoding (jsTrim (stripPdfExt filename)))) <|>
        matchBfm (nfcFr (fixFilenameEncoding (jsTrim (stripPdfExt filename)))) with
  | none =>
    { commune := none, mois := none, moisLabel := none, annee := none,
      erreur := some ("Format de nom de fichier non reconnu : ".data ++ filename) }
  | some (communeRaw, moisStr, anneeStr) =>
    match resolveMois moisStr with
    | none =>
      { commune := none, mois := none, moisLabel := none, annee := none,
        erreur := some ("Mois \"".data ++ jsTrim moisStr ++ "\" non reconnu.".data) }
    | some (.num 0) =>
      { commune := none, mois := none, moisLabel := none, annee := none,
        erreur := some ("Mois \"".data ++ jsTrim moisStr ++ "\" non reconnu.".data) }
    | some idx =>
      { commune := some (jsTrim (communeRaw.map
          (fun c => if c = '_' ∨ c = '-' then ' ' else c))),
        mois := some idx,
        moisLabel := moisLabelOf idx,
        annee := some (digitsVal anneeStr),
        erreur := none }

/-- Model of `[\+\-%\d]` — the delimiter class required after the pair of integers. -/
def isDelimChar (c : Char) : Bool :=
  c = '+' || c = '-' || c = '%' || isDigitChar c

/-- Model of `norm.indexOf(label)`: position of the first occurrence of `pat`, `none`
for JavaScript's `-1`. -/
def indexOfSub (pat : List Char) : List Char → Option ℕ
  | [] => if pat.isPrefixOf ([] : List Char) then some 0 else none
  | c :: cs =>
    if pat.isPrefixOf (c :: cs) then some 0
    else (indexOfSub pat cs).map (· + 1)

/-- One attempt of `/(\d+)\s+(\d+)\s*[\+\-%\d]/` anchored at the start of
`s`.  The first group and the `\s+` are forced maximal (giving back a
character would make the following atom match a character outside its
class); the second group is first tried maximal, and when no delimiter
follows, the engine backtracks one digit so that the last digit of the run
serves as the `[\+\-%\d]` delimiter — possible only when the run has at
least two digits.  Returns (first group value, second group value, remainder
of the window after the match), i.e. after `re.lastIndex`. -/
def matchPairAt (s : List Char) : Option (ℤ × ℤ × List Char) :=
  let d1 := s.takeWhile isDigitChar
  let r1 := s.dropWhile isDigitChar
  if d1.isEmpty then none
  else
    let w1 := r1.takeWhile jsIsSpace
    let r2 := r1.dropWhile jsIsSpace
    if w1.isEmpty then none
    else
      let d2 := r2.takeWhile isDigitChar
      let r3 := r2.dropWhile isDigitChar
      if d2.isEmpty then none
      else
        match r3.dropWhile jsIsSpace with
        | c :: rest =>
          if isDelimChar c then some (digitsVal d1, digitsVal d2, rest)
          else if 2 ≤ d2.length then some (digitsVal d1, digitsVal d2.dropLast, r3)
          else none
        | [] =>
          if 2 ≤ d2.length then some (digitsVal d1, digitsVal d2.dropLast, r3)
          else none

/-- Model of `re.exec(after)`: leftmost match of the pair pattern in the window. -/
def execPair : List Char → Option (ℤ × ℤ × List Char)
  | [] => none
  | c :: cs =>
    match matchPairAt (c :: cs) with
    | some r => some r
    | none => execPair cs

/-- The `while ((m = re.exec(after)) !== null)` loop of `getTwoIntsAfter`:
successive non-overlapping matches, skipping (`continue`) any candidate pair
with a component above 200 or with first component above 25 and second below
5, returning the first surviving pair.  The fuel only bounds the number of
loop iterations; each match consumes at least one character of the window,
so `window.length + 1` iterations can never be exhausted first. -/
def scanPairs : ℕ → List Char → Option (ℤ × ℤ)
  | 0, _ => none
  | fuel + 1, s =>
    match execPair s with
    | none => none
    | some (a, b, rest) =>
      if 200 < a ∨ 200 < b then scanPairs fuel rest
      else if 25 < a ∧ b < 5 then scanPairs fuel rest
      else some (a, b)

/-- Model of `getTwoIntsAfter` (identical closures at `parsePdf` line 33 and browser
line 282): find the label, slice a 180-character window after it, and run
the filtered pair scan; `[null, null]` is modelled as `none`. -/
def getTwoIntsAfter (norm label : List Char) : Option (ℤ × ℤ) :=
  match indexOfSub label norm with
  | none => none
  | some idx =>
    scanPairs (((norm.drop (idx + label.length)).take 180).length + 1)
      ((norm.drop (idx + label.length)).take 180)

/-- Model of `getOneIntAfter` (identical closures at `parsePdf` line 49 and browser
line 298): first `\d+` run within an 80-character window after the label. -/
def getOneIntAfter (norm label : List Char) : Option ℤ :=
  match indexOfSub label norm with
  | none => none
  | some idx =>
    let d := ((((norm.drop (idx + label.length)).take 80).dropWhile
        (fun c => !(isDigitChar c))).takeWhile isDigitChar)
    if d.isEmpty then none else some (digitsVal d)

/-- Model of `text.replace(/\s+/g, " ")`: collapse every whitespace run to one
space. -/
def collapseWs : List Char → List Char
  | [] => []
  | [c] => if jsIsSpace c then [' '] else [c]
  | c :: d :: rest =>
    if jsIsSpace c && jsIsSpace d then collapseWs (d :: rest)
    else (if jsIsSpace c then ' ' else c) :: collapseWs (d :: rest)

/-- The normalisation both `parsePdfText` implementations start with:
`(text || "").replace(/\s+/g, " ").trim()`. -/
def normText (t : List Char) : List Char :=
  jsTrim (collapseWs t)

/-- Model of `parseIntStrict`: `null`/empty gives `null`; otherwise strip all
whitespace and apply `parseInt` base 10 — an optional sign followed by a
digit run, `NaN` (here `none`) when no leading digit remains. -/
def parseIntStrict (s : List Char) : Option ℤ :=
  if s.isEmpty then none
  else
    let n := s.filter (fun c => !(jsIsSpace c))
    let sg : ℤ × List Char :=
      match n with
      | '+' :: t => (1, t)
      | '-' :: t => (-1, t)
      | _ => (1, n)
    let d := sg.2.takeWhile isDigitChar
    if d.isEmpty then none else some (sg.1 * digitsVal d)

/-- Model of `s.replace(",", ".")` — a string first argument replaces only the first
occurrence. -/
def replaceFirstComma : List Char → List Char
  | [] => []
  | ',' :: t => '.' :: t
  | c :: t => c :: replaceFirstComma t

/-- Model of `parseFloat` on the whitespace-stripped, comma-replaced captures this
program produces (optional sign, integer digits, optional fraction; the
captures are drawn from `[\d\s,.]` so no exponent can occur). -/
def parseFloatQ (s : List Char) : Option ℚ :=
  let sg : ℤ × List Char :=
    match s with
    | '+' :: t => (1, t)
    | '-' :: t => (-1, t)
    | _ => (1, s)
  let ip := sg.2.takeWhile isDigitChar
  let r2 := sg.2.dropWhile isDigitChar
  match r2 with
  | '.' :: t =>
    let fp := t.takeWhile isDigitChar
    if ip.isEmpty && fp.isEmpty then none
    else some ((sg.1 : ℚ) * ((digitsVal ip : ℚ) +
      (digitsVal fp : ℚ) / (10 : ℚ) ^ fp.length))
  | _ => if ip.isEmpty then none else some ((sg.1 : ℚ) * (digitsVal ip : ℚ))

/-- Model of `normalizeNum`: `null`/empty gives `null`; otherwise strip all
whitespace, turn the first comma into a decimal point, and `parseFloat`,
with `NaN` surfacing as `null`. -/
def normalizeNum (s : List Char) : Option ℚ :=
  if s.isEmpty then none
  else parseFloatQ (replaceFirstComma (s.filter (fun c => !(jsIsSpace c))))

/-- Does `s` begin with `pat`, case-insensitively (a JavaScript `/i` regex on
the Basic Latin / Latin-1 repertoire of these labels)? -/
def ciLeads : List Char → List Char → Bool
  | [], _ => true
  | _ :: _, [] => false
  | p :: ps, c :: cs => (jsToLower p = jsToLower c) && ciLeads ps cs

/-- Case-insensitive literal prefix consumption. -/
def dropCI (pat s : List Char) : Option (List Char) :=
  if ciLeads pat s then some (s.drop pat.length) else none

/-- Leftmost-match search: try the anchored matcher at every start position,
exactly as the regex engine advances its start index on failure. -/
def scanFor {α : Type} (f : List Char → Option α) : List Char → Option α
  | [] => f []
  | c :: cs =>
    match f (c :: cs) with
    | some v => some v
    | none => scanFor f cs

/-- Model of `/Population\s*\*?\s*:?\s*(\d[\d\s]*)\s*habitants/i` anchored at the
start of `s`.  The optional `*` and `:` and the maximal whitespace skips are
deterministic (the following atom never matches what they would give back),
and `habitants` must start exactly where the maximal `[\d\s]` run ends,
since the capture's give-backs are absorbed by the `\s*` at the same
position. -/
def popAt (s : List Char) : Option ℚ :=
  match dropCI ("Population".data) s with
  | none => none
  | some r1 =>
    let r2 := r1.dropWhile jsIsSpace
    let r3 := match r2 with | '*' :: t => t | _ => r2
    let r4 := r3.dropWhile jsIsSpace
    let r5 := match r4 with | ':' :: t => t | _ => r4
    let r6 := r5.dropWhile jsIsSpace
    match r6 with
    | c :: _ =>
      if isDigitChar c then
        let cap := r6.takeWhile (fun ch => isDigitChar ch || jsIsSpace ch)
        let rest := r6.dropWhile (fun ch => isDigitChar ch || jsIsSpace ch)
        if ciLeads ("habitants".data) rest then normalizeNum cap else none
      else none
    | [] => none

/-- Model of `/Surface\s*:?\s*(\d[\d\s,]*)\s*km/i` anchored at the start of `s`. -/
def surfAt (s : List Char) : Option ℚ :=
  match dropCI ("Surface".data) s with
  | none => none
  | some r1 =>
    let r2 := r1.dropWhile jsIsSpace
    let r3 := match r2 with | ':' :: t => t | _ => r2
    let r4 := r3.dropWhile jsIsSpace
    match r4 with
    | c :: _ =>
      if isDigitChar c then
        let cap := r4.takeWhile (fun ch => isDigitChar ch || jsIsSpace ch || ch = ',')
        let rest := r4.dropWhile (fun ch => isDigitChar ch || jsIsSpace ch || ch = ',')
        if ciLeads ("km".data) rest then normalizeNum cap else none
      else none
    | [] => none

/-- Model of `/Densité\s*:?\s*(\d[\d\s,]*)\s*hab/i` anchored at the start of `s`. -/
def densAt (s : List Char) : Option ℚ :=
  match dropCI ("Densité".data) s with
  | none => none
  | some r1 =>
    let r2 := r1.dropWhile jsIsSpace
    let r3 := match r2 with | ':' :: t => t | _ => r2
    let r4 := r3.dropWhile jsIsSpace
    match r4 with
    | c :: _ =>
      if isDigitChar c then
        let cap := r4.takeWhile (fun ch => isDigitChar ch || jsIsSpace ch || ch = ',')
        let rest := r4.dropWhile (fun ch => isDigitChar ch || jsIsSpace ch || ch = ',')
        if ciLeads ("hab".data) rest then normalizeNum cap else none
      else none
    | [] => none

def populationOf (norm : List Char) : Option ℚ := scanFor popAt norm

def surfaceOf (norm : List Char) : Option ℚ := scanFor surfAt norm

def densiteOf (norm : List Char) : Option ℚ := scanFor densAt norm

/-- Model of `/Taux de criminalité\s*[\d.,\s]+\s*‰\s*([\d.,\s]+)\s*‰/i` anchored at
the start of `s`; the second `[\d.,\s]+` group (current-year rate) is
captured.  Each per-mille sign must follow its maximal `[\d.,\s]` run, since
whitespace give-backs land on the same position. -/
def tauxAt (s : List Char) : Option ℚ :=
  match dropCI ("Taux de criminalité".data) s with
  | none => none
  | some r1 =>
    let run1 := r1.takeWhile (fun c => isDigitChar c || c = '.' || c = ',' || jsIsSpace c)
    let rest1 := r1.dropWhile (fun c => isDigitChar c || c = '.' || c = ',' || jsIsSpace c)
    if run1.isEmpty then none
    else
      match rest1 with
      | '‰' :: r2 =>
        let run2 := r2.takeWhile (fun c => isDigitChar c || c = '.' || c = ',' || jsIsSpace c)
        let rest2 := r2.dropWhile (fun c => isDigitChar c || c = '.' || c = ',' || jsIsSpace c)
        if run2.isEmpty then none
        else
          match rest2 with
          | '‰' :: _ => normalizeNum run2
          | _ => none
      | _ => none

def tauxOf (norm : List Char) : Option ℚ := scanFor tauxAt norm

/-- Maximal digit runs of a string, in order: `block.match(/\d+/g)`. -/
def digitRunsAux : List Char → List Char → List (List Char)
  | cur, [] => if cur.isEmpty then [] else [cur.reverse]
  | cur, c :: cs =>
    if isDigitChar c then digitRunsAux (c :: cur) cs
    else if cur.isEmpty then digitRunsAux [] cs
    else cur.reverse :: digitRunsAux [] cs

def digitRuns (s : List Char) : List (List Char) := digitRunsAux [] s

/-- The 280-character block after the first "Nombre de faits constatés". -/
def faitsBlock (norm : List Char) : Option (List Char) :=
  match indexOfSub ("Nombre de faits constatés".data) norm with
  | none => none
  | some idx => some ((norm.drop idx).take 280)

/-- Model of `faitsN1`: first digit run of the facts block, provided it has at least
two runs. -/
def faitsN1Of (norm : List Char) : Option ℤ :=
  match faitsBlock norm with
  | none => none
  | some block =>
    match digitRuns block with
    | r1 :: _ :: _ => parseIntStrict r1
    | _ => none

/-- Model of `faitsN`: second digit run of the facts block. -/
def faitsNOf (norm : List Char) : Option ℤ :=
  match faitsBlock norm with
  | none => none
  | some block =>
    match digitRuns block with
    | _ :: r2 :: _ => parseIntStrict r2
    | _ => none

/-- Model of `/fait\s*\(\s*s\s*\)\s*\)\s*(\d{2,4})/i` anchored at the start of `s`;
the greedy `\d{2,4}` takes up to four digits of the following run and fails
below two. -/
def cumulAfterFait1At (s : List Char) : Option ℤ :=
  match dropCI ("fait".data) s with
  | none => none
  | some r1 =>
    match r1.dropWhile jsIsSpace with
    | '(' :: r3 =>
      match r3.dropWhile jsIsSpace with
      | c :: r5 =>
        if jsToLower c = 's' then
          match r5.dropWhile jsIsSpace with
          | ')' :: r7 =>
            match r7.dropWhile jsIsSpace with
            | ')' :: r9 =>
              let d := (r9.dropWhile jsIsSpace).takeWhile isDigitChar
              if 2 ≤ d.length then parseIntStrict (d.take 4) else none
            | _ => none
          | _ => none
        else none
      | [] => none
    | _ => none

/-- Model of `/fait\(s\)\)\s*(\d{2,4})/` (case-sensitive variant) anchored at the
start of `s`. -/
def cumulAfterFait2At (s : List Char) : Option ℤ :=
  if ("fait(s))".data).isPrefixOf s then
    let d := ((s.drop 8).dropWhile jsIsSpace).takeWhile isDigitChar
    if 2 ≤ d.length then parseIntStrict (d.take 4) else none
  else none

/-- Model of `/Cumul\s*20\d{2}\s*(\d{2,4})/i` anchored at the start of `s`. -/
def cumulFallbackAt (s : List Char) : Option ℤ :=
  match dropCI ("Cumul".data) s with
  | none => none
  | some r1 =>
    match r1.dropWhile jsIsSpace with
    | '2' :: '0' :: a :: b :: r3 =>
      if isDigitChar a && isDigitChar b then
        let d := (r3.dropWhile jsIsSpace).takeWhile isDigitChar
        if 2 ≤ d.length then parseIntStrict (d.take 4) else none
      else none
    | _ => none

/-- Model of `cumul`: inside the facts block, the parenthetical count after
"fait(s))" (permissive then strict variant); when still null, the
"Cumul 20XX" label anywhere in the document. -/
def cumulOf (norm : List Char) : Option ℤ :=
  (match faitsBlock norm with
   | none => none
   | some block =>
     (scanFor cumulAfterFait1At block) <|> (scanFor cumulAfterFait2At block)) <|>
  scanFor cumulFallbackAt norm

def cbvOf (norm : List Char) : Option ℤ :=
  ((getTwoIntsAfter norm ("Coups et blessures volontaires".data)).map Prod.snd) <|>
  getOneIntAfter norm ("Coups et blessures".data)

def menacesOf (norm : List Char) : Option ℤ :=
  (getTwoIntsAfter norm ("Menaces ou chantages".data)).map Prod.snd

def volsSimpOf (norm : List Char) : Option ℤ :=
  (getTwoIntsAfter norm ("Vols simples (41".data)).map Prod.snd

def cambResOf (norm : List Char) : Option ℤ :=
  ((getTwoIntsAfter norm ("Cambriolages de résidences".data)).map Prod.snd) <|>
  getOneIntAfter norm ("Cambriolages de résidences".data)

/-- The three-label fallback chain computing the local variable `cambPro`
(lines 97–99 server, 339–341 browser). -/
def cambProChain (norm : List Char) : Option ℤ :=
  ((getTwoIntsAfter norm ("Cambriolages de locaux".data)).map Prod.snd) <|>
  ((getTwoIntsAfter norm ("professionnelle, publique ou associative".data)).map Prod.snd) <|>
  ((getTwoIntsAfter norm ("professionnelle ou associative (29)".data)).map Prod.snd)

def roulotteOf (norm : List Char) : Option ℤ :=
  ((getTwoIntsAfter norm ("Vols à la roulotte".data)).map Prod.snd) <|>
  ((getTwoIntsAfter norm ("roulotte et d\x27accessoires".data)).map Prod.snd)

def destrucVehOf (norm : List Char) : Option ℤ :=
  ((getTwoIntsAfter norm ("Destructions et dégradations de véhicules privés".data)).map Prod.snd) <|>
  ((getTwoIntsAfter norm ("véhicules privés (68)".data)).map Prod.snd)

def incendiesOf (norm : List Char) : Option ℤ :=
  (getTwoIntsAfter norm ("Incendies volontaires de biens".data)).map Prod.snd

def stupefOf (norm : List Char) : Option ℤ :=
  ((getTwoIntsAfter norm ("stupéfiants constatées".data)).map Prod.snd) <|>
  ((getTwoIntsAfter norm ("législation sur les stupéfiants".data)).map Prod.snd)

def autoriteOf (norm : List Char) : Option ℤ :=
  ((getTwoIntsAfter norm ("Atteintes à l\x27autorité".data)).map Prod.snd) <|>
  ((getTwoIntsAfter norm ("autorité (72, 73)".data)).map Prod.snd)

/-- The intermediate extraction result both `parsePdfText` implementations
build: every numeric field nullable, absence meaning "not found". -/
structure RawIndicatorSet where
  population : Option ℚ
  surface : Option ℚ
  densite : Option ℚ
  faitsN1 : Option ℤ
  faitsN : Option ℤ
  cumul : Option ℤ
  taux : Option ℚ
  cbv : Option ℤ
  menaces : Option ℤ
  volsSimp : Option ℤ
  cambRes : Option ℤ
  cambPro : Option ℤ
  roulotte : Option ℤ
  destrucVeh : Option ℤ
  incendies : Option ℤ
  stupef : Option ℤ
  autorite : Option ℤ
deriving DecidableEq

/-- The browser `parsePdfText` (module line 278): total; its `cambPro` field
is the three-label chain with a `getOneIntAfter` fallback (line 357). -/
def parsePdfTextBrowser (text : List Char) : RawIndicatorSet :=
  { population := populationOf (normText text)
    surface := surfaceOf (normText text)
    densite := densiteOf (normText text)
    faitsN1 := faitsN1Of (normText text)
    faitsN := faitsNOf (normText text)
    cumul := cumulOf (normText text)
    taux := tauxOf (normText text)
    cbv := cbvOf (normText text)
    menaces := menacesOf (normText text)
    volsSimp := volsSimpOf (normText text)
    cambRes := cambResOf (normText text)
    cambPro := (cambProChain (normText text)) <|>
      getOneIntAfter (normText text) ("Cambriolages de locaux".data)
    roulotte := roulotteOf (normText text)
    destrucVeh := destrucVehOf (normText text)
    incendies := incendiesOf (normText text)
    stupef := stupefOf (normText text)
    autorite := autoriteOf (normText text) }

/-- A thrown JavaScript error. -/
inductive JsErr where
  | referenceError (name : List Char)
deriving DecidableEq

/-- The server `parsePdfText` (module line 26).  Its return object's
`cambPro` field (line 122) is `cambPro ?? cambPro2 ?? getOneIntAfter(...)`,
where `cambPro2` is declared nowhere in the module: when the three-label
chain is null, evaluating `cambPro2` raises
`ReferenceError: cambPro2 is not defined`; when the chain is non-null, `??`
short-circuits and the object is returned. -/
def parsePdfTextServer (text : List Char) : Except JsErr RawIndicatorSet :=
  match cambProChain (normText text) with
  | some v =>
    .ok
      { population := populationOf (normText text)
        surface := surfaceOf (normText text)
        densite := densiteOf (normText text)
        faitsN1 := faitsN1Of (normText text)
        faitsN := faitsNOf (normText text)
        cumul := cumulOf (normText text)
        taux := tauxOf (normText text)
        cbv := cbvOf (normText text)
        menaces := menacesOf (normText text)
        volsSimp := volsSimpOf (normText text)
        cambRes := cambResOf (normText text)
        cambPro := some v
        roulotte := roulotteOf (normText text)
        destrucVeh := destrucVehOf (normText text)
        incendies := incendiesOf (normText text)
        stupef := stupefOf (normText text)
        autorite := autoriteOf (normText text) }
  | none => .error (.referenceError ("cambPro2".data))

/-- Model of `Math.round`: round half toward positive infinity. -/
def jsRound (q : ℚ) : ℤ := ⌊q + 1 / 2⌋

/-- Model of `varPct` (lines 168 server, 366 browser):
`n1 != null && n1 > 0 && n != null ? Math.round((n - n1) / n1 * 100) : null`. -/
def varPct (n1 n : Option ℚ) : Option ℤ :=
  match n1, n with
  | some a, some b => if 0 < a then some (jsRound ((b - a) / a * 100)) else none
  | _, _ => none

/-- The fourteen fields the callers pass to `buildIndicateursFrontend`. -/
structure IndicInput where
  faitsN1 : Option ℤ
  faitsN : Option ℤ
  cumul : Option ℤ
  taux : Option ℚ
  cbv : Option ℤ
  menaces : Option ℤ
  volsSimp : Option ℤ
  cambRes : Option ℤ
  cambPro : Option ℤ
  roulotte : Option ℤ
  destrucVeh : Option ℤ
  incendies : Option ℤ
  stupef : Option ℤ
  autorite : Option ℤ
deriving DecidableEq

/-- The twelve fixed keys of the mapping `buildIndicateursFrontend`
returns. -/
inductive IndicKey where
  | general_faits | general_taux | cbv | menaces | vols_simples | camb_resid
  | camb_pro | roulotte | destruc_veh | incendies | stupef | autorite
deriving DecidableEq, Fintype

/-- One entry of the mapping: label, category group, and the nullable
values.  Entries other than `general_faits` carry no `taux` property, which
is modelled as `none`. -/
structure Indicateur where
  label : List Char
  cat : List Char
  valN1 : Option ℚ
  valN : Option ℚ
  cumul : Option ℚ
  variationPct : Option ℤ
  taux : Option ℚ
deriving DecidableEq

/-- The server `buildIndicateursFrontend` (module line 164). -/
def buildIndicateursFrontendServer (p : IndicInput) : IndicKey → Indicateur
  | .general_faits =>
    { label := "Faits constatés".data, cat := "Général".data,
      valN1 := p.faitsN1.map (fun z => (z : ℚ)),
      valN := p.faitsN.map (fun z => (z : ℚ)),
      cumul := p.cumul.map (fun z => (z : ℚ)),
      variationPct := varPct (p.faitsN1.map (fun z => (z : ℚ)))
        (p.faitsN.map (fun z => (z : ℚ))),
      taux := p.taux }
  | .general_taux =>
    { label := "Taux criminalité (‰)".data, cat := "Général".data,
      valN1 := none, valN := p.taux, cumul := none, variationPct := none,
      taux := none }
  | .cbv =>
    { label := "Coups et blessures volontaires".data, cat := "Personnes".data,
      valN1 := none, valN := p.cbv.map (fun z => (z : ℚ)), cumul := none,
      variationPct := none, taux := none }
  | .menaces =>
    { label := "Menaces ou chantages".data, cat := "Personnes".data,
      valN1 := none, valN := p.menaces.map (fun z => (z : ℚ)), cumul := none,
      variationPct := none, taux := none }
  | .vols_simples =>
    { label := "Vols simples".data, cat := "Vols".data,
      valN1 := none, valN := p.volsSimp.map (fun z => (z : ℚ)), cumul := none,
      variationPct := none, taux := none }
  | .camb_resid =>
    { label := "Cambriolages résidentiels".data, cat := "Cambriolages".data,
      valN1 := none, valN := p.cambRes.map (fun z => (z : ℚ)), cumul := none,
      variationPct := none, taux := none }
  | .camb_pro =>
    { label := "Cambriolages locaux pro.".data, cat := "Cambriolages".data,
      valN1 := none, valN := p.cambPro.map (fun z => (z : ℚ)), cumul := none,
      variationPct := none, taux := none }
  | .roulotte =>
    { label := "Vols à la roulotte".data, cat := "Automobile".data,
      valN1 := none, valN := p.roulotte.map (fun z => (z : ℚ)), cumul := none,
      variationPct := none, taux := none }
  | .destruc_veh =>
    { label := "Destructions véhicules".data, cat := "Automobile".data,
      valN1 := none, valN := p.destrucVeh.map (fun z => (z : ℚ)), cumul := none,
      variationPct := none, taux := none }
  | .incendies =>
    { label := "Incendies volontaires".data, cat := "Autres".data,
      valN1 := none, valN := p.incendies.map (fun z => (z : ℚ)), cumul := none,
      variationPct := none, taux := none }
  | .stupef =>
    { label := "Infractions stupéfiants".data, cat := "Autres".data,
      valN1 := none, valN := p.stupef.map (fun z => (z : ℚ)), cumul := none,
      variationPct := none, taux := none }
  | .autorite =>
    { label := "Atteintes à l\x27autorité".data, cat := "Autres".data,
      valN1 := none, valN := p.autorite.map (fun z => (z : ℚ)), cumul := none,
      variationPct := none, taux := none }

/-- The browser `buildIndicateursFrontend` (module line 362); its body is
character-identical to the server one. -/
def buildIndicateursFrontendBrowser (p : IndicInput) : IndicKey → Indicateur
  | .general_faits =>
    { label := "Faits constatés".data, cat := "Général".data,
      valN1 := p.faitsN1.map (fun z => (z : ℚ)),
      valN := p.faitsN.map (fun z => (z : ℚ)),
      cumul := p.cumul.map (fun z => (z : ℚ)),
      variationPct := varPct (p.faitsN1.map (fun z => (z : ℚ)))
        (p.faitsN.map (fun z => (z : ℚ))),
      taux := p.taux }
  | .general_taux =>
    { label := "Taux criminalité (‰)".data, cat := "Général".data,
      valN1 := none, valN := p.taux, cumul := none, variationPct := none,
      taux := none }
  | .cbv =>
    { label := "Coups et blessures volontaires".data, cat := "Personnes".data,
      valN1 := none, valN := p.cbv.map (fun z => (z : ℚ)), cumul := none,
      variationPct := none, taux := none }
  | .menaces =>
    { label := "Menaces ou chantages".data, cat := "Personnes".data,
      valN1 := none, valN := p.menaces.map (fun z => (z : ℚ)), cumul := none,
      variationPct := none, taux := none }
  | .vols_simples =>
    { label := "Vols simples".data, cat := "Vols".data,
      valN1 := none, valN := p.volsSimp.map (fun z => (z : ℚ)), cumul := none,
      variationPct := none, taux := none }
  | .camb_resid =>
    { label := "Cambriolages résidentiels".data, cat := "Cambriolages".data,
      valN1 := none, valN := p.cambRes.map (fun z => (z : ℚ)), cumul := none,
      variationPct := none, taux := none }
  | .camb_pro =>
    { label := "Cambriolages locaux pro.".data, cat := "Cambriolages".data,
      valN1 := none, valN := p.cambPro.map (fun z => (z : ℚ)), cumul := none,
      variationPct := none, taux := none }
  | .roulotte =>
    { label := "Vols à la roulotte".data, cat := "Automobile".data,
      valN1 := none, valN := p.roulotte.map (fun z => (z : ℚ)), cumul := none,
      variationPct := none, taux := none }
  | .destruc_veh =>
    { label := "Destructions véhicules".data, cat := "Automobile".data,
      valN1 := none, valN := p.destrucVeh.map (fun z => (z : ℚ)), cumul := none,
      variationPct := none, taux := none }
  | .incendies =>
    { label := "Incendies volontaires".data, cat := "Autres".data,
      valN1 := none, valN := p.incendies.map (fun z => (z : ℚ)), cumul := none,
      variationPct := none, taux := none }
  | .stupef =>
    { label := "Infractions stupéfiants".data, cat := "Autres".data,
      valN1 := none, valN := p.stupef.map (fun z => (z : ℚ)), cumul := none,
      variationPct := none, taux := none }
  | .autorite =>
    { label := "Atteintes à l\x27autorité".data, cat := "Autres".data,
      valN1 := none, valN := p.autorite.map (fun z => (z : ℚ)), cumul := none,
      variationPct := none, taux := none }

end SD

/-! Helper lemmas -/

lemma SD.replace2_of_not_hasPair (a b r : Char) :
    ∀ s : List Char, SD.hasPair a b s = false → SD.replace2 a b r s = s := by
  intro s
  induction s with
  | nil => intro _; rfl
  | cons c rest ih =>
    cases rest with
    | nil => intro _; rfl
    | cons d rest' =>
      intro h
      simp only [SD.hasPair, Bool.or_eq_false_iff] at h
      obtain ⟨h1, h2⟩ := h
      have hne : ¬(c = a ∧ d = b) := by
        intro hc
        rw [hc.1, hc.2] at h1
        simp at h1
      simp only [SD.replace2, if_neg hne]
      rw [ih h2]

lemma SD.fixFilenameEncoding_of_corruptFree (s : List Char)
    (h : SD.corruptFree s = true) : SD.fixFilenameEncoding s = s := by
  simp only [SD.corruptFree, SD.corruptSeconds, List.all_cons, List.all_nil,
    Bool.and_eq_true, Bool.not_eq_true', Bool.and_true] at h
  obtain ⟨h1, h2, h3, h4, h5, h6, h7, h8, h9, h10, h11⟩ := h
  unfold SD.fixFilenameEncoding
  rw [SD.replace2_of_not_hasPair _ _ _ _ h1, SD.replace2_of_not_hasPair _ _ _ _ h2,
    SD.replace2_of_not_hasPair _ _ _ _ h3, SD.replace2_of_not_hasPair _ _ _ _ h4,
    SD.replace2_of_not_hasPair _ _ _ _ h5, SD.replace2_of_not_hasPair _ _ _ _ h6,
    SD.replace2_of_not_hasPair _ _ _ _ h7, SD.replace2_of_not_hasPair _ _ _ _ h8,
    SD.replace2_of_not_hasPair _ _ _ _ h9, SD.replace2_of_not_hasPair _ _ _ _ h10,
    SD.replace2_of_not_hasPair _ _ _ _ h11]

lemma SD.scanPairs_plausible :
    ∀ (fuel : ℕ) (s : List Char) (a b : ℤ),
      SD.scanPairs fuel s = some (a, b) →
        a ≤ 200 ∧ b ≤ 200 ∧ ¬(26 ≤ a ∧ b < 5) := by
  intro fuel
  induction fuel with
  | zero => intro s a b h; simp [SD.scanPairs] at h
  | succ n ih =>
    intro s a b h
    unfold SD.scanPairs at h
    cases he : SD.execPair s with
    | none => rw [he] at h; exact absurd h (by simp)
    | some r =>
      obtain ⟨a', b', rest⟩ := r
      rw [he] at h
      simp only at h
      by_cases h1 : 200 < a' ∨ 200 < b'
      · rw [if_pos h1] at h; exact ih rest a b h
      · rw [if_neg h1] at h
        by_cases h2 : 25 < a' ∧ b' < 5
        · rw [if_pos h2] at h; exact ih rest a b h
        · rw [if_neg h2] at h
          simp only [Option.some.injEq, Prod.mk.injEq] at h
          obtain ⟨ha, hb⟩ := h
          subst ha; subst hb
          push_neg at h1
          refine ⟨h1.1, h1.2, ?_⟩
          intro hc
          exact h2 ⟨by omega, hc.2⟩

/-! Claims -/

/-- C8: a string containing none of the eleven corrupted two-character
sequences beginning with `Ã` passes through `fixFilenameEncoding` unchanged,
and on such a string applying the repair twice equals applying it once. -/
theorem c8_fix_encoding_noop (s : List Char) (h : SD.corruptFree s = true) :
    SD.fixFilenameEncoding s = s ∧
      SD.fixFilenameEncoding (SD.fixFilenameEncoding s) =
        SD.fixFilenameEncoding s := by
  have h1 := SD.fixFilenameEncoding_of_corruptFree s h
  exact ⟨h1, by rw [h1, h1]⟩

/-- Witness for C8 at the concrete, correctly encoded string
"Sémézies-Cachan été". -/
theorem c8_fix_encoding_noop_witness :
    SD.corruptFree ("Sémézies-Cachan été".data) = true ∧
      SD.fixFilenameEncoding ("Sémézies-Cachan été".data) =
        "Sémézies-Cachan été".data :=
  ⟨by decide, (c8_fix_encoding_noop ("Sémézies-Cachan été".data) (by decide)).1⟩

/-- C3: the exactly-one-of invariant fails on the program.  The month token
"constructor" — all lowercase, free of digits and underscores, so accepted
by pattern B — makes `MOIS_MAP[moisTrim]` hit the inherited
`Object.prototype.constructor` (a truthy function), skipping the
`!moisIndex` error branch: `parseFilename("Commune_constructor2024.pdf")`
returns commune "Commune", `mois` the inherited constructor function,
`moisLabel` undefined and year 2024 with no error — neither an error-only
record nor a valid record whose month is an integer in 1..12. -/
theorem c3_parseFilename_prototype_leak :
    SD.parseFilename ("Commune_constructor2024.pdf".data) =
      { commune := some ("Commune".data),
        mois := some (SD.JsNumOrFun.fn ("constructor".data)),
        moisLabel := none,
        annee := some 2024,
        erreur := none } ∧
    ¬(∃ e, SD.parseFilename ("Commune_constructor2024.pdf".data) =
        ⟨none, none, none, none, some e⟩) ∧
    ¬(∃ c m l y, SD.parseFilename ("Commune_constructor2024.pdf".data) =
        ⟨some c, some (SD.JsNumOrFun.num m), some l, some y, none⟩) := by
  have hev : SD.parseFilename ("Commune_constructor2024.pdf".data) =
      { commune := some ("Commune".data),
        mois := some (SD.JsNumOrFun.fn ("constructor".data)),
        moisLabel := none,
        annee := some 2024,
        erreur := none } := by decide
  refine ⟨hev, ?_, ?_⟩
  · rintro ⟨e, h⟩
    rw [hev] at h
    exact Option.noConfusion (congrArg SD.ParsedFilename.commune h)
  · rintro ⟨c, m, l, y, h⟩
    rw [hev] at h
    have hm := congrArg SD.ParsedFilename.mois h
    simp only [Option.some.injEq] at hm
    exact SD.JsNumOrFun.noConfusion hm

/-- C6: the two canonical filename conventions parse to the correct triples:
"06_Saint_Alban_juin2024.pdf" gives commune "Saint Alban", month 6, label
"Juin", year 2024; "Saint_Alban_aout2023.pdf" gives commune "Saint Alban",
month 8, label "Août", year 2023 — in both cases with no error. -/
theorem c6_parseFilename_examples :
    SD.parseFilename ("06_Saint_Alban_juin2024.pdf".data) =
      ⟨some ("Saint Alban".data), some (SD.JsNumOrFun.num 6), some ("Juin".data),
        some 2024, none⟩ ∧
    SD.parseFilename ("Saint_Alban_aout2023.pdf".data) =
      ⟨some ("Saint Alban".data), some (SD.JsNumOrFun.num 8), some ("Août".data),
        some 2023, none⟩ := by
  constructor <;> decide

/-- C7: the two documented failure modes: "rapport.pdf" matches neither
filename pattern and yields the format error; "Commune_xyz2024.pdf" matches
pattern B but the token "xyz" resolves to no month, yielding the
month-not-recognized error. -/
theorem c7_parseFilename_errors :
    SD.parseFilename ("rapport.pdf".data) =
      ⟨none, none, none, none,
        some ("Format de nom de fichier non reconnu : rapport.pdf".data)⟩ ∧
    SD.parseFilename ("Commune_xyz2024.pdf".data) =
      ⟨none, none, none, none, some ("Mois \"xyz\" non reconnu.".data)⟩ := by
  constructor <;> decide

/-- C5: whenever `getTwoIntsAfter` returns a pair (a, b), the pair passed the
plausibility filter: a ≤ 200, b ≤ 200, and not (a ≥ 26 with b < 5); every
candidate violating these bounds is skipped by the scan loop, and when no
candidate survives the result is absent. -/
theorem c5_pair_plausibility (norm label : List Char) (a b : ℤ)
    (h : SD.getTwoIntsAfter norm label = some (a, b)) :
    a ≤ 200 ∧ b ≤ 200 ∧ ¬(26 ≤ a ∧ b < 5) := by
  unfold SD.getTwoIntsAfter at h
  cases hi : SD.indexOfSub label norm with
  | none => rw [hi] at h; exact absurd h (by simp)
  | some idx =>
    rw [hi] at h
    exact SD.scanPairs_plausible _ _ a b h

/-- Witness for C5: on "L 3 4 +" after label "L" the extractor returns the
pair (3, 4), which satisfies the plausibility bounds. -/
theorem c5_pair_plausibility_witness :
    SD.getTwoIntsAfter ("L 3 4 +".data) ("L".data) = some (3, 4) ∧
      ((3 : ℤ) ≤ 200 ∧ (4 : ℤ) ≤ 200 ∧ ¬(26 ≤ (3 : ℤ) ∧ (4 : ℤ) < 5)) :=
  ⟨by decide, c5_pair_plausibility ("L 3 4 +".data) ("L".data) 3 4 (by decide)⟩

/-- C10 counterexample: with the first occurrence of the label "LBL"
followed in the window only by "12 15" — no `+`, `-`, `%` and no digit after
the pair — the extractor does NOT return [null, null]; the regex backtracks
inside the second numeral and returns the pair (12, 1), the final `5`
serving as the digit delimiter. -/
theorem c10_trailing_digit_counterexample :
    SD.getTwoIntsAfter ("LBL 12 15".data) ("LBL".data) = some (12, 1) ∧
      SD.getTwoIntsAfter ("LBL 12 15".data) ("LBL".data) ≠ none := by
  refine ⟨by decide, ?_⟩
  intro h
  exact absurd h (by decide)

/-- C10 amended: when the label is followed only by "12 156" the extractor
returns (12, 15), consuming the final 6 as the delimiter; when it is
followed only by "12 15" it likewise consumes the trailing 5 of the second
numeral as the delimiter and returns (12, 1) — the result is absent only
when no backtracked parse exists at all, e.g. a lone "12". -/
theorem c10_trailing_digit_amended :
    SD.getTwoIntsAfter ("LBL 12 156".data) ("LBL".data) = some (12, 15) ∧
    SD.getTwoIntsAfter ("LBL 12 15".data) ("LBL".data) = some (12, 1) ∧
    SD.getTwoIntsAfter ("LBL 12".data) ("LBL".data) = none := by
  refine ⟨by decide, by decide, by decide⟩

/-- The all-null extraction result. -/
def SD.emptyRaw : SD.RawIndicatorSet :=
  { population := none, surface := none, densite := none, faitsN1 := none,
    faitsN := none, cumul := none, taux := none, cbv := none, menaces := none,
    volsSimp := none, cambRes := none, cambPro := none, roulotte := none,
    destrucVeh := none, incendies := none, stupef := none, autorite := none }

/-- The extraction result on "Cambriolages de locaux 3 4 +": only the
professional-burglary pair is found, current-year value 4. -/
def SD.cambOnlyRaw : SD.RawIndicatorSet :=
  { population := none, surface := none, densite := none, faitsN1 := none,
    faitsN := none, cumul := none, taux := none, cbv := none, menaces := none,
    volsSimp := none, cambRes := none, cambPro := some 4, roulotte := none,
    destrucVeh := none, incendies := none, stupef := none, autorite := none }

/-- C1: on the empty text — a text on which every cambriolages-de-locaux
label lookup fails — the server `parsePdfText` does not return a
`RawIndicatorSet` with null fields: it raises
`ReferenceError: cambPro2 is not defined` (the undeclared identifier on
line 122), while its character-identical browser twin returns the all-null
set as the specification describes. -/
theorem c1_server_parsePdfText_throws :
    SD.parsePdfTextServer ("".data) =
      Except.error (SD.JsErr.referenceError ("cambPro2".data)) ∧
    SD.parsePdfTextBrowser ("".data) = SD.emptyRaw :=
  ⟨rfl, rfl⟩

/-- C2 counterexample: at the input text "" the server `parsePdfText` does
not return the browser result (or any result): it throws, so the two
implementations do not compute the same function. -/
theorem c2_server_browser_counterexample :
    SD.parsePdfTextServer ("".data) =
      Except.error (SD.JsErr.referenceError ("cambPro2".data)) ∧
    SD.parsePdfTextServer ("".data) ≠
      Except.ok (SD.parsePdfTextBrowser ("".data)) := by
  refine ⟨rfl, ?_⟩
  intro h
  rw [show SD.parsePdfTextServer ("".data) =
      Except.error (SD.JsErr.referenceError ("cambPro2".data)) from rfl] at h
  exact Except.noConfusion h

/-- C2 amended: whenever the server `parsePdfText` returns at all (i.e. the
cambriolages-de-locaux chain found a value, so the undeclared `cambPro2` is
never evaluated), its result equals the browser `parsePdfText` result; and
the two `buildIndicateursFrontend` implementations agree on every input and
every key. -/
theorem c2_server_browser_agree :
    (∀ t r, SD.parsePdfTextServer t = Except.ok r →
      r = SD.parsePdfTextBrowser t) ∧
    (∀ p k, SD.buildIndicateursFrontendServer p k =
      SD.buildIndicateursFrontendBrowser p k) := by
  constructor
  · intro t r h
    unfold SD.parsePdfTextServer at h
    cases hc : SD.cambProChain (SD.normText t) with
    | none => rw [hc] at h; exact absurd h (by simp)
    | some v =>
      rw [hc] at h
      simp only [Except.ok.injEq] at h
      subst h
      unfold SD.parsePdfTextBrowser
      rw [hc]
      rfl
  · intro p k
    cases k <;> rfl

/-- Witness for C2: a text on which the server implementation returns,
and its result coincides with the browser result. -/
theorem c2_server_browser_agree_witness :
    SD.parsePdfTextServer ("Cambriolages de locaux 3 4 +".data) =
      Except.ok (SD.parsePdfTextBrowser ("Cambriolages de locaux 3 4 +".data)) := by
  have h : SD.parsePdfTextServer ("Cambriolages de locaux 3 4 +".data) =
      Except.ok SD.cambOnlyRaw := rfl
  have h2 := c2_server_browser_agree.1 ("Cambriolages de locaux 3 4 +".data)
    SD.cambOnlyRaw h
  rw [h, h2]

/-- C4: `varPct` equals `round((current - prior) / prior * 100)` exactly when
the prior value is present and strictly positive and the current value is
present, and is null when the prior is null or nonpositive or the current is
null; in particular prior 27, current 36 gives +33 and prior 10, current 8
gives −20. -/
theorem c4_variation_percent :
    (∀ a b : ℚ, 0 < a →
      SD.varPct (some a) (some b) = some (SD.jsRound ((b - a) / a * 100))) ∧
    (∀ a b : ℚ, a ≤ 0 → SD.varPct (some a) (some b) = none) ∧
    (∀ n : Option ℚ, SD.varPct none n = none) ∧
    (∀ p : Option ℚ, SD.varPct p none = none) ∧
    SD.varPct (some 27) (some 36) = some 33 ∧
    SD.varPct (some 10) (some 8) = some (-20) := by
  have h27 : SD.varPct (some 27) (some 36) = some 33 := by
    have : SD.jsRound (((36 : ℚ) - 27) / 27 * 100) = 33 := by
      unfold SD.jsRound
      rw [show ((36 : ℚ) - 27) / 27 * 100 + 1 / 2 = 203 / 6 by norm_num,
        Int.floor_eq_iff]
      constructor <;> norm_num
    simp [SD.varPct, this]
  have h10 : SD.varPct (some 10) (some 8) = some (-20) := by
    have : SD.jsRound (((8 : ℚ) - 10) / 10 * 100) = -20 := by
      unfold SD.jsRound
      rw [show ((8 : ℚ) - 10) / 10 * 100 + 1 / 2 = -39 / 2 by norm_num,
        Int.floor_eq_iff]
      constructor <;> norm_num
    simp [SD.varPct, this]
  refine ⟨?_, ?_, ?_, ?_, h27, h10⟩
  · intro a b h
    simp [SD.varPct, if_pos h]
  · intro a b h
    simp only [SD.varPct]
    rw [if_neg (not_lt.mpr h)]
  · intro n; cases n <;> rfl
  · intro p; cases p <;> rfl

/-- Witness for C4 at prior 27, current 36. -/
theorem c4_variation_percent_witness :
    (0 : ℚ) < 27 ∧
      SD.varPct (some 27) (some 36) =
        some (SD.jsRound ((36 - 27) / 27 * 100)) :=
  ⟨by norm_num, c4_variation_percent.1 27 36 (by norm_num)⟩

/-- C9: `buildIndicateursFrontend` returns a mapping over exactly 12 fixed
keys; the `general_faits` entry has label "Faits constatés", category
"Général" and carries the prior/current/cumulative values, the derived
variation and the crime rate; the `general_taux` entry has label
"Taux criminalité (‰)", category "Général" and only the crime rate as its
current value; and each of the ten category entries carries its fixed label
and one of the five groups Personnes, Vols, Cambriolages, Automobile,
Autres. -/
theorem c9_build_frontend_structure (p : SD.IndicInput) :
    Fintype.card SD.IndicKey = 12 ∧
    (SD.buildIndicateursFrontendBrowser p .general_faits =
      { label := "Faits constatés".data, cat := "Général".data,
        valN1 := p.faitsN1.map (fun z => (z : ℚ)),
        valN := p.faitsN.map (fun z => (z : ℚ)),
        cumul := p.cumul.map (fun z => (z : ℚ)),
        variationPct := SD.varPct (p.faitsN1.map (fun z => (z : ℚ)))
          (p.faitsN.map (fun z => (z : ℚ))),
        taux := p.taux }) ∧
    (SD.buildIndicateursFrontendBrowser p .general_taux =
      { label := "Taux criminalité (‰)".data, cat := "Général".data,
        valN1 := none, valN := p.taux, cumul := none, variationPct := none,
        taux := none }) ∧
    ((SD.buildIndicateursFrontendBrowser p .cbv).label =
        "Coups et blessures volontaires".data ∧
      (SD.buildIndicateursFrontendBrowser p .cbv).cat = "Personnes".data) ∧
    ((SD.buildIndicateursFrontendBrowser p .menaces).label =
        "Menaces ou chantages".data ∧
      (SD.buildIndicateursFrontendBrowser p .menaces).cat = "Personnes".data) ∧
    ((SD.buildIndicateursFrontendBrowser p .vols_simples).label =
        "Vols simples".data ∧
      (SD.buildIndicateursFrontendBrowser p .vols_simples).cat = "Vols".data) ∧
    ((SD.buildIndicateursFrontendBrowser p .camb_resid).label =
        "Cambriolages résidentiels".data ∧
      (SD.buildIndicateursFrontendBrowser p .camb_resid).cat =
        "Cambriolages".data) ∧
    ((SD.buildIndicateursFrontendBrowser p .camb_pro).label =
        "Cambriolages locaux pro.".data ∧
      (SD.buildIndicateursFrontendBrowser p .camb_pro).cat =
        "Cambriolages".data) ∧
    ((SD.buildIndicateursFrontendBrowser p .roulotte).label =
        "Vols à la roulotte".data ∧
      (SD.buildIndicateursFrontendBrowser p .roulotte).cat =
        "Automobile".data) ∧
    ((SD.buildIndicateursFrontendBrowser p .destruc_veh).label =
        "Destructions véhicules".data ∧
      (SD.buildIndicateursFrontendBrowser p .destruc_veh).cat =
        "Automobile".data) ∧
    ((SD.buildIndicateursFrontendBrowser p .incendies).label =
        "Incendies volontaires".data ∧
      (SD.buildIndicateursFrontendBrowser p .incendies).cat = "Autres".data) ∧
    ((SD.buildIndicateursFrontendBrowser p .stupef).label =
        "Infractions stupéfiants".data ∧
      (SD.buildIndicateursFrontendBrowser p .stupef).cat = "Autres".data) ∧
    ((SD.buildIndicateursFrontendBrowser p .autorite).label =
        "Atteintes à l\x27autorité".data ∧
      (SD.buildIndicateursFrontendBrowser p .autorite).cat = "Autres".data) :=
  ⟨by decide, rfl, rfl, ⟨rfl, rfl⟩, ⟨rfl, rfl⟩, ⟨rfl, rfl⟩, ⟨rfl, rfl⟩,
    ⟨rfl, rfl⟩, ⟨rfl, rfl⟩, ⟨rfl, rfl⟩, ⟨rfl, rfl⟩, ⟨rfl, rfl⟩, ⟨rfl, rfl⟩⟩
